import Mathlib

/-!
Shallow embedding of `src/gcp/storage/client.rs` from the `gcs-rsync`
repository: the authenticated storage HTTP client (`StorageClient`), its
token cache (`tokio::sync::RwLock<Token>`), its response classification
(`success_response`) and its public operations (`delete`, `post`,
`get_as_stream`, `get_as_json`).

Collaborator types that live outside the provided sources
(`oauth2::token::{Token, AccessToken, TokenGenerator}`, the storage `Error`
enum, `DeserializedResponse`, `reqwest`) are modelled from the spec, as
noted on each definition.

The token cache discipline of `refresh_token` is modelled as a small-step
interleaving machine (`Step`) whose lock accounting follows
`tokio::sync::RwLock`: a read guard is released when its binding goes out
of scope, and a write acquisition is enabled only while no read guard is
outstanding.  The Rust source *shadows* the read guard binding `t` inside
the `else` branch instead of dropping it, so the outer read guard lives
until the end of the function body: it is still held across the
`token_generator.get` network call and across `self.token.write().await`.
-/

namespace Gcs

/-- Modelled from the spec: the opaque error produced when the
`TokenGenerator` collaborator fails to mint a token
(`oauth2::token` is not under the provided sources). -/
abbrev TokenError := String

/-- Modelled from the spec: the opaque network/IO error of the transport
collaborator (`reqwest::Error`). -/
abbrev HttpErr := String

/-- A chunk of response-body bytes (`bytes::Bytes`). -/
abbrev Bytes := List Nat

/-- Modelled from the spec: a `Token` is an opaque credential together with
a validity predicate (`is_valid`) and a bearer-string projection
(`access_token`); immutable once created (`oauth2::token` is not under the
provided sources). -/
structure Token where
  access_token : String
  is_valid : Bool
deriving DecidableEq, Repr

/-- Modelled from the spec: `AccessToken` is the bearer-string projection of
a `Token`. -/
abbrev AccessToken := String

/-- Modelled from the spec: the storage error taxonomy of
`super::Error` (the `storage` module's error enum is not under the provided
sources): token minting failure, transport failure, 404, unexpected status
with body, and JSON envelope error tagged with the result type's name. -/
inductive Error where
  | GcsTokenError (e : TokenError)
  | GcsHttpError (e : HttpErr)
  | GcsResourceNotFound (url : String)
  | GcsUnexpectedResponse (url : String) (body : String)
  | GcsUnexpectedJson (type_name : String) (url : String) (details : String)
deriving DecidableEq, Repr

/-- `Error::gcs_unexpected_response_error(url, err)`. -/
def Error.gcs_unexpected_response_error (url err : String) : Error :=
  Error.GcsUnexpectedResponse url err

/-- `Error::gcs_unexpected_json::<R>(url, err)`: tags the error with the
name of the requested result type `R`. -/
def Error.gcs_unexpected_json (type_name url details : String) : Error :=
  Error.GcsUnexpectedJson type_name url details

/-- `StorageResult<T> = Result<T, Error>`. -/
abbrev StorageResult (α : Type) := Except Error α

instance {ε α : Type} [DecidableEq ε] [DecidableEq α] : DecidableEq (Except ε α) := by
  intro a b
  cases a <;> cases b
  case error.error e f =>
    exact if h : e = f then .isTrue (by rw [h]) else .isFalse (by simp [h])
  case error.ok e f => exact .isFalse (by simp)
  case ok.error e f => exact .isFalse (by simp)
  case ok.ok e f =>
    exact if h : e = f then .isTrue (by rw [h]) else .isFalse (by simp [h])

/-- Modelled from the spec: the raw transport response body as a lazy,
single-pass chunk sequence, per-chunk fallible; a failed read is terminal
(`reqwest`'s `bytes_stream` yields its chunks in order and, if the
underlying read fails, one terminal error). -/
structure BodyStream where
  chunks : List Bytes
  failure : Option HttpErr
deriving DecidableEq, Repr

/-- Modelled from the spec: the transport response object
(`reqwest::Response`): exposes a status code, a full-body text decode
(`text()`, itself fallible), and a byte-chunk stream (`bytes_stream()`). -/
structure Response where
  status : Nat
  text : Except HttpErr String
  body : BodyStream
deriving DecidableEq, Repr

/-- `reqwest::StatusCode::is_success()`: 2xx. -/
def is_success (status : Nat) : Bool :=
  200 ≤ status && status < 300

/-- `StorageClient::success_response(url, response)`: 2xx passes the
response through untouched; 404 becomes `GcsResourceNotFound { url }`; any
other status reads the body as text (failure there becomes `GcsHttpError`)
and becomes `gcs_unexpected_response_error(url, body)`. -/
def success_response (url : String) (response : Response) :
    StorageResult Response :=
  if is_success response.status then Except.ok response
  else if response.status = 404 then
    Except.error (Error.GcsResourceNotFound url)
  else
    match response.text with
    | Except.error e => Except.error (Error.GcsHttpError e)
    | Except.ok err => Except.error (Error.gcs_unexpected_response_error url err)

/-- The cached-token cell owned by the client: `StorageClient` keeps
`token: RwLock<Token>` (the transport `client` and the `token_generator` are
stateless collaborators, passed to the operations as oracles below). -/
structure StorageClient where
  token : Token
deriving DecidableEq, Repr

/-- `StorageClient::new(token_generator)`: one awaited call to the
generator mints the initial token (`map_err(Error::GcsTokenError)?`); on
success the client holds it, on failure the error propagates and no client
is produced. -/
def StorageClient.new (gen : Except TokenError Token) :
    StorageResult StorageClient :=
  match gen with
  | Except.error e => Except.error (Error.GcsTokenError e)
  | Except.ok t => Except.ok { token := t }

/-
## Small-step machine for `StorageClient::refresh_token`

Each thread runs one `refresh_token` call.  Program points follow the Rust
source line by line; a point records which guards the task holds:

* `start`     — before `self.token.read().await`;
* `reading`   — `let t = self.token.read().await;` returned: the task holds
                a read guard and is about to test `t.is_valid()`;
* `minting`   — invalid branch: `self.token_generator.get(..).await` is in
                flight.  The outer binding `t` (the read guard) is shadowed,
                not dropped, so the read guard is still held;
* `writeWait t` — the generator returned `Ok(t)` and the task awaits
                `self.token.write().await`, still holding its read guard;
* `done r`    — the function returned `r`; locals (including the read
                guard) have been dropped.
-/

/-- Program counter of one `refresh_token` invocation. -/
inductive PC where
  | start
  | reading
  | minting
  | writeWait (t : Token)
  | done (r : Except Error AccessToken)
deriving DecidableEq, Repr

/-- Whether the task holds a read guard on the token cell at this program
point (the guard is acquired on entering `reading` and, because the Rust
source shadows the binding instead of dropping it, released only when the
function returns). -/
def PC.holds_read : PC → Bool
  | PC.reading => true
  | PC.minting => true
  | PC.writeWait _ => true
  | _ => false

/-- Whether the invocation has returned. -/
def PC.isDone : PC → Bool
  | PC.done _ => true
  | _ => false

/-- One concurrent caller of `refresh_token`: the outcome its
`token_generator.get` call would produce, and its program counter. -/
structure Thread where
  gen : Except TokenError Token
  pc : PC
deriving DecidableEq, Repr

/-- A configuration of the interleaving machine: the token cell's content
and the concurrent `refresh_token` callers. -/
structure Config where
  token : Token
  threads : List Thread
deriving DecidableEq, Repr

/-- Number of outstanding read guards on the token cell. -/
def readers (c : Config) : Nat :=
  (c.threads.filter (fun th => th.pc.holds_read)).length

/-- The configuration after thread `i` (currently `th`) moves to program
point `p`; the token cell is untouched. -/
def withPC (c : Config) (i : Nat) (th : Thread) (p : PC) : Config :=
  { token := c.token, threads := c.threads.set i { gen := th.gen, pc := p } }

/-- The configuration after thread `i` (currently `th`) performs
`*self.token.write().await = t` and returns: the cell now holds `t` and the
thread is done with `Ok(access_token)` (computed from `t` before the
write). -/
def installCfg (c : Config) (i : Nat) (th : Thread) (t : Token) : Config :=
  { token := t,
    threads := c.threads.set i { gen := th.gen, pc := PC.done (Except.ok t.access_token) } }

/-- Interleaving small-step relation for concurrent `refresh_token` calls.
`tokio::sync::RwLock` semantics: `install` (the body of
`*self.token.write().await = t`) is enabled only when no read guard is
outstanding; it is the only step that changes the cell.  Read acquisition
is modelled as always enabled (tokio's writer-fairness can only remove
interleavings, and every theorem below quantifying over reachable
configurations is universal). -/
inductive Step : Config → Config → Prop where
  | acquire_read (c : Config) (i : Nat) (th : Thread)
      (hget : c.threads.get? i = some th) (hpc : th.pc = PC.start) :
      Step c (withPC c i th PC.reading)
  | read_valid (c : Config) (i : Nat) (th : Thread)
      (hget : c.threads.get? i = some th) (hpc : th.pc = PC.reading)
      (hv : c.token.is_valid = true) :
      Step c (withPC c i th (PC.done (Except.ok c.token.access_token)))
  | read_invalid (c : Config) (i : Nat) (th : Thread)
      (hget : c.threads.get? i = some th) (hpc : th.pc = PC.reading)
      (hv : c.token.is_valid = false) :
      Step c (withPC c i th PC.minting)
  | mint_err (c : Config) (i : Nat) (th : Thread) (e : TokenError)
      (hget : c.threads.get? i = some th) (hpc : th.pc = PC.minting)
      (hgen : th.gen = Except.error e) :
      Step c (withPC c i th (PC.done (Except.error (Error.GcsTokenError e))))
  | mint_ok (c : Config) (i : Nat) (th : Thread) (t : Token)
      (hget : c.threads.get? i = some th) (hpc : th.pc = PC.minting)
      (hgen : th.gen = Except.ok t) :
      Step c (withPC c i th (PC.writeWait t))
  | install (c : Config) (i : Nat) (th : Thread) (t : Token)
      (hget : c.threads.get? i = some th) (hpc : th.pc = PC.writeWait t)
      (hfree : readers c = 0) :
      Step c (installCfg c i th t)

/-- Configurations reachable from `c₀` by interleaved execution. -/
abbrev Reachable (c₀ c : Config) : Prop :=
  Relation.ReflTransGen Step c₀ c

/-- The initial configuration of a single `refresh_token` call against
cached token `t₀`, whose generator call would produce `g`. -/
def init1 (t₀ : Token) (g : Except TokenError Token) : Config :=
  { token := t₀, threads := [{ gen := g, pc := PC.start }] }

lemma mem_of_get?_eq_some {α : Type} {l : List α} {i : Nat} {a : α}
    (h : l.get? i = some a) : a ∈ l := by
  induction l generalizing i with
  | nil => simp [List.get?] at h
  | cons x xs ih =>
    cases i with
    | zero => simp [List.get?] at h; simp [h]
    | succ j =>
      simp only [List.get?] at h
      exact List.mem_cons_of_mem x (ih h)

lemma mem_set_cases {α : Type} {l : List α} {i : Nat} {a b : α}
    (h : a ∈ l.set i b) : a ∈ l ∨ a = b := by
  induction l generalizing i with
  | nil => simp [List.set] at h
  | cons x xs ih =>
    cases i with
    | zero =>
      simp only [List.set] at h
      rcases List.mem_cons.mp h with h1 | h1
      · exact Or.inr h1
      · exact Or.inl (List.mem_cons_of_mem x h1)
    | succ j =>
      simp only [List.set] at h
      rcases List.mem_cons.mp h with h1 | h1
      · exact Or.inl (by simp [h1])
      · rcases ih h1 with h2 | h2
        · exact Or.inl (List.mem_cons_of_mem x h2)
        · exact Or.inr h2

/-- A thread that awaits the write lock still holds its own read guard, so
the cell is never free: `tokio`'s `write().await` can never be granted to
it. -/
lemma install_blocked {c : Config} {i : Nat} {th : Thread} {t : Token}
    (hget : c.threads.get? i = some th) (hpc : th.pc = PC.writeWait t) :
    readers c ≠ 0 := by
  have hmem : th ∈ c.threads := mem_of_get?_eq_some hget
  have hrd : th.pc.holds_read = true := by rw [hpc]; rfl
  have hmemf : th ∈ c.threads.filter (fun th => th.pc.holds_read) :=
    List.mem_filter.mpr ⟨hmem, hrd⟩
  have : 0 < (c.threads.filter (fun th => th.pc.holds_read)).length :=
    List.length_pos.mpr (List.ne_nil_of_mem hmemf)
  unfold readers
  omega

/-- No step ever changes the content of the token cell: the only writing
step, `install`, requires zero outstanding read guards, but the installing
thread itself still holds one. -/
lemma step_preserves_token {c c' : Config} (h : Step c c') :
    c'.token = c.token := by
  cases h with
  | install i th t hget hpc hfree =>
    exact absurd hfree (install_blocked hget hpc)
  | acquire_read i th hget hpc => rfl
  | read_valid i th hget hpc hv => rfl
  | read_invalid i th hget hpc hv => rfl
  | mint_err i th e hget hpc hgen => rfl
  | mint_ok i th t hget hpc hgen => rfl

/-- The token cell never changes along any execution. -/
lemma reachable_token_eq {c₀ c : Config} (h : Reachable c₀ c) :
    c.token = c₀.token := by
  induction h with
  | refl => rfl
  | tail hab hbc ih => rw [step_preserves_token hbc, ih]

/-- Invariant of executions started with an invalid cached token in which
every caller's generator would succeed: the cell keeps the initial token
and no caller ever returns. -/
def StuckInv (t₀ : Token) (c : Config) : Prop :=
  c.token = t₀ ∧
    ∀ th ∈ c.threads, (∃ t, th.gen = Except.ok t) ∧ th.pc.isDone = false

lemma stuckInv_step {t₀ : Token} (ht₀ : t₀.is_valid = false)
    {c c' : Config} (hs : Step c c') (hc : StuckInv t₀ c) : StuckInv t₀ c' := by
  obtain ⟨htok, hth⟩ := hc
  cases hs with
  | acquire_read i th hget hpc =>
    refine ⟨htok, fun th' hmem => ?_⟩
    rcases mem_set_cases hmem with h | h
    · exact hth th' h
    · subst h
      exact ⟨(hth th (mem_of_get?_eq_some hget)).1, rfl⟩
  | read_valid i th hget hpc hv =>
    rw [htok, ht₀] at hv
    exact absurd hv (by simp)
  | read_invalid i th hget hpc hv =>
    refine ⟨htok, fun th' hmem => ?_⟩
    rcases mem_set_cases hmem with h | h
    · exact hth th' h
    · subst h
      exact ⟨(hth th (mem_of_get?_eq_some hget)).1, rfl⟩
  | mint_err i th e hget hpc hgen =>
    rcases (hth th (mem_of_get?_eq_some hget)).1 with ⟨t, hgt⟩
    rw [hgen] at hgt
    exact absurd hgt (by simp)
  | mint_ok i th t hget hpc hgen =>
    refine ⟨htok, fun th' hmem => ?_⟩
    rcases mem_set_cases hmem with h | h
    · exact hth th' h
    · subst h
      exact ⟨(hth th (mem_of_get?_eq_some hget)).1, rfl⟩
  | install i th t hget hpc hfree =>
    exact absurd hfree (install_blocked hget hpc)

lemma stuckInv_reachable {t₀ : Token} (ht₀ : t₀.is_valid = false)
    {c₀ c : Config} (h : Reachable c₀ c) (h₀ : StuckInv t₀ c₀) :
    StuckInv t₀ c := by
  induction h with
  | refl => exact h₀
  | tail hab hbc ih => exact stuckInv_step ht₀ hbc ih

/-- Invariant of executions started with an invalid cached token in which
every caller's generator would fail with `e`: the cell keeps the initial
token and the only possible returned value is `Err(GcsTokenError e)`. -/
def MintErrInv (t₀ : Token) (e : TokenError) (c : Config) : Prop :=
  c.token = t₀ ∧
    ∀ th ∈ c.threads, th.gen = Except.error e ∧
      (th.pc.isDone = false ∨
        th.pc = PC.done (Except.error (Error.GcsTokenError e)))

lemma mintErrInv_step {t₀ : Token} {e : TokenError} (ht₀ : t₀.is_valid = false)
    {c c' : Config} (hs : Step c c') (hc : MintErrInv t₀ e c) :
    MintErrInv t₀ e c' := by
  obtain ⟨htok, hth⟩ := hc
  cases hs with
  | acquire_read i th hget hpc =>
    refine ⟨htok, fun th' hmem => ?_⟩
    rcases mem_set_cases hmem with h | h
    · exact hth th' h
    · subst h
      exact ⟨(hth th (mem_of_get?_eq_some hget)).1, Or.inl rfl⟩
  | read_valid i th hget hpc hv =>
    rw [htok, ht₀] at hv
    exact absurd hv (by simp)
  | read_invalid i th hget hpc hv =>
    refine ⟨htok, fun th' hmem => ?_⟩
    rcases mem_set_cases hmem with h | h
    · exact hth th' h
    · subst h
      exact ⟨(hth th (mem_of_get?_eq_some hget)).1, Or.inl rfl⟩
  | mint_err i th e' hget hpc hgen =>
    have hge : th.gen = Except.error e := (hth th (mem_of_get?_eq_some hget)).1
    rw [hgen] at hge
    have he : e' = e := by
      have := Except.error.inj hge
      exact this
    subst he
    refine ⟨htok, fun th' hmem => ?_⟩
    rcases mem_set_cases hmem with h | h
    · exact hth th' h
    · subst h
      exact ⟨(hth th (mem_of_get?_eq_some hget)).1, Or.inr rfl⟩
  | mint_ok i th t hget hpc hgen =>
    have hge : th.gen = Except.error e := (hth th (mem_of_get?_eq_some hget)).1
    rw [hgen] at hge
    exact absurd hge (by simp)
  | install i th t hget hpc hfree =>
    exact absurd hfree (install_blocked hget hpc)

lemma mintErrInv_reachable {t₀ : Token} {e : TokenError}
    (ht₀ : t₀.is_valid = false) {c₀ c : Config} (h : Reachable c₀ c)
    (h₀ : MintErrInv t₀ e c₀) : MintErrInv t₀ e c := by
  induction h with
  | refl => exact h₀
  | tail hab hbc ih => exact mintErrInv_step ht₀ hbc ih

/-- The complete run of a single `refresh_token` call whose cached token is
invalid and whose generator fails: acquire the read guard, observe the
token invalid, call the generator, propagate `GcsTokenError` with `?`. -/
lemma mint_err_execution (t₀ : Token) (e : TokenError)
    (ht₀ : t₀.is_valid = false) :
    Reachable (init1 t₀ (Except.error e))
      ⟨t₀, [⟨Except.error e, PC.done (Except.error (Error.GcsTokenError e))⟩]⟩ := by
  have s1 : Step (init1 t₀ (Except.error e))
      ⟨t₀, [⟨Except.error e, PC.reading⟩]⟩ :=
    Step.acquire_read (init1 t₀ (Except.error e)) 0 ⟨Except.error e, PC.start⟩ rfl rfl
  have s2 : Step ⟨t₀, [⟨Except.error e, PC.reading⟩]⟩
      ⟨t₀, [⟨Except.error e, PC.minting⟩]⟩ :=
    Step.read_invalid _ 0 ⟨Except.error e, PC.reading⟩ rfl rfl ht₀
  have s3 : Step ⟨t₀, [⟨Except.error e, PC.minting⟩]⟩
      ⟨t₀, [⟨Except.error e, PC.done (Except.error (Error.GcsTokenError e))⟩]⟩ :=
    Step.mint_err _ 0 ⟨Except.error e, PC.minting⟩ e rfl rfl rfl
  exact Relation.ReflTransGen.head s1 (Relation.ReflTransGen.head s2
    (Relation.ReflTransGen.head s3 Relation.ReflTransGen.refl))

/-- The complete run of a single `refresh_token` call whose cached token is
valid: acquire the read guard, return the cached token's projection. -/
lemma fast_path_execution (t₀ : Token) (g : Except TokenError Token)
    (ht₀ : t₀.is_valid = true) :
    Reachable (init1 t₀ g)
      ⟨t₀, [⟨g, PC.done (Except.ok t₀.access_token)⟩]⟩ := by
  have s1 : Step (init1 t₀ g) ⟨t₀, [⟨g, PC.reading⟩]⟩ :=
    Step.acquire_read (init1 t₀ g) 0 ⟨g, PC.start⟩ rfl rfl
  have s2 : Step ⟨t₀, [⟨g, PC.reading⟩]⟩
      ⟨t₀, [⟨g, PC.done (Except.ok t₀.access_token)⟩]⟩ :=
    Step.read_valid _ 0 ⟨g, PC.reading⟩ rfl rfl ht₀
  exact Relation.ReflTransGen.head s1
    (Relation.ReflTransGen.head s2 Relation.ReflTransGen.refl)

/-- The prefix of the invalid-path run with a successful generator: after
observing the token invalid the task calls the generator while still
holding the read guard, then waits forever for the write lock. -/
lemma mint_ok_execution (t₀ t₁ : Token) (ht₀ : t₀.is_valid = false) :
    Reachable (init1 t₀ (Except.ok t₁)) ⟨t₀, [⟨Except.ok t₁, PC.minting⟩]⟩ ∧
    Reachable (init1 t₀ (Except.ok t₁)) ⟨t₀, [⟨Except.ok t₁, PC.writeWait t₁⟩]⟩ := by
  have s1 : Step (init1 t₀ (Except.ok t₁)) ⟨t₀, [⟨Except.ok t₁, PC.reading⟩]⟩ :=
    Step.acquire_read (init1 t₀ (Except.ok t₁)) 0 ⟨Except.ok t₁, PC.start⟩ rfl rfl
  have s2 : Step ⟨t₀, [⟨Except.ok t₁, PC.reading⟩]⟩
      ⟨t₀, [⟨Except.ok t₁, PC.minting⟩]⟩ :=
    Step.read_invalid _ 0 ⟨Except.ok t₁, PC.reading⟩ rfl rfl ht₀
  have s3 : Step ⟨t₀, [⟨Except.ok t₁, PC.minting⟩]⟩
      ⟨t₀, [⟨Except.ok t₁, PC.writeWait t₁⟩]⟩ :=
    Step.mint_ok _ 0 ⟨Except.ok t₁, PC.minting⟩ t₁ rfl rfl rfl
  refine ⟨?_, ?_⟩
  · exact Relation.ReflTransGen.head s1
      (Relation.ReflTransGen.head s2 Relation.ReflTransGen.refl)
  · exact Relation.ReflTransGen.head s1 (Relation.ReflTransGen.head s2
      (Relation.ReflTransGen.head s3 Relation.ReflTransGen.refl))

/-
## Termination-observable outcome of `refresh_token`, and the operations

The public operations call `self.refresh_token().await?` while building
the request.  `refresh_token_run` is the outcome of one such call executed
in isolation, as justified against the step machine by the three
correspondence lemmas below: the valid path returns the cached projection,
the invalid path with a failing generator propagates `GcsTokenError`, and
the invalid path with a successful generator never returns (`none`), since
the task deadlocks awaiting the write lock while still holding its own
read guard.
-/

/-- Outcome of one isolated `refresh_token` call, as observable on
termination; `none` means the call never returns. -/
def refresh_token_run (cached : Token) (gen : Except TokenError Token) :
    Option (StorageResult AccessToken) :=
  if cached.is_valid then some (Except.ok cached.access_token)
  else
    match gen with
    | Except.error e => some (Except.error (Error.GcsTokenError e))
    | Except.ok _ => none

lemma refresh_run_agrees_valid (t₀ : Token) (g : Except TokenError Token)
    (ht₀ : t₀.is_valid = true) :
    refresh_token_run t₀ g = some (Except.ok t₀.access_token) ∧
    Reachable (init1 t₀ g)
      ⟨t₀, [⟨g, PC.done (Except.ok t₀.access_token)⟩]⟩ :=
  ⟨by simp [refresh_token_run, ht₀], fast_path_execution t₀ g ht₀⟩

lemma refresh_run_agrees_mint_err (t₀ : Token) (e : TokenError)
    (ht₀ : t₀.is_valid = false) :
    refresh_token_run t₀ (Except.error e)
        = some (Except.error (Error.GcsTokenError e)) ∧
    Reachable (init1 t₀ (Except.error e))
      ⟨t₀, [⟨Except.error e, PC.done (Except.error (Error.GcsTokenError e))⟩]⟩ :=
  ⟨by simp [refresh_token_run, ht₀], mint_err_execution t₀ e ht₀⟩

lemma refresh_run_agrees_stuck (t₀ t₁ : Token) (ht₀ : t₀.is_valid = false) :
    refresh_token_run t₀ (Except.ok t₁) = none ∧
    ∀ c, Reachable (init1 t₀ (Except.ok t₁)) c →
      ∀ th ∈ c.threads, th.pc.isDone = false := by
  refine ⟨by simp [refresh_token_run, ht₀], fun c h => ?_⟩
  have hinv : StuckInv t₀ c := by
    refine stuckInv_reachable ht₀ h ⟨rfl, fun th hmem => ?_⟩
    have : th = ⟨Except.ok t₁, PC.start⟩ := List.mem_singleton.mp hmem
    subst this
    exact ⟨⟨t₁, rfl⟩, rfl⟩
  exact fun th hmem => (hinv.2 th hmem).2

/-- An HTTP request actually handed to the transport by an operation
(`send()` was reached), with the bearer token attached by `bearer_auth`. -/
inductive NetEvent where
  | http_delete (url : String) (bearer : AccessToken)
  | http_post (url : String) (bearer : AccessToken) (body : List Bytes)
  | http_get (url : String) (bearer : AccessToken) (query : List (String × String))
deriving DecidableEq, Repr

/-- `StorageClient::delete(url)`: refresh the token (`?` propagates its
error before any request is built), send the DELETE with bearer auth
(`send` is the transport oracle; a transport failure becomes
`GcsHttpError`), classify with `success_response`, discard the payload.
The result is paired with the requests actually sent; `none` means the
call never returns (token refresh deadlocked). -/
def delete (cached : Token) (gen : Except TokenError Token)
    (send : Except HttpErr Response) (url : String) :
    Option (StorageResult Unit × List NetEvent) :=
  match refresh_token_run cached gen with
  | none => none
  | some (Except.error e) => some (Except.error e, [])
  | some (Except.ok bearer) =>
    match send with
    | Except.error e =>
      some (Except.error (Error.GcsHttpError e), [NetEvent.http_delete url bearer])
    | Except.ok response =>
      match success_response url response with
      | Except.error e => some (Except.error e, [NetEvent.http_delete url bearer])
      | Except.ok _ => some (Except.ok (), [NetEvent.http_delete url bearer])

/-- `StorageClient::post(url, body)`: like `delete`, with the caller's
streamed body wrapped as the request body. -/
def post (cached : Token) (gen : Except TokenError Token)
    (send : Except HttpErr Response) (url : String) (body : List Bytes) :
    Option (StorageResult Unit × List NetEvent) :=
  match refresh_token_run cached gen with
  | none => none
  | some (Except.error e) => some (Except.error e, [])
  | some (Except.ok bearer) =>
    match send with
    | Except.error e =>
      some (Except.error (Error.GcsHttpError e), [NetEvent.http_post url bearer body])
    | Except.ok response =>
      match success_response url response with
      | Except.error e => some (Except.error e, [NetEvent.http_post url bearer body])
      | Except.ok _ => some (Except.ok (), [NetEvent.http_post url bearer body])

/-- The item sequence produced by `reqwest`'s `bytes_stream()` on a
response body: its chunks in order, then, if the underlying read fails,
one terminal error. -/
def bytes_stream (b : BodyStream) : List (Except HttpErr Bytes) :=
  b.chunks.map Except.ok ++
    (match b.failure with
     | some e => [Except.error e]
     | none => [])

/-- `StorageClient::get_as_stream(url, query)`: refresh the token, send
the GET with bearer auth and query, classify with `success_response`, and
on success return the response's byte-chunk stream with each item's error
mapped through `GcsHttpError` (`map_err`). -/
def get_as_stream (cached : Token) (gen : Except TokenError Token)
    (send : Except HttpErr Response) (url : String)
    (query : List (String × String)) :
    Option (StorageResult (List (StorageResult Bytes)) × List NetEvent) :=
  match refresh_token_run cached gen with
  | none => none
  | some (Except.error e) => some (Except.error e, [])
  | some (Except.ok bearer) =>
    match send with
    | Except.error e =>
      some (Except.error (Error.GcsHttpError e), [NetEvent.http_get url bearer query])
    | Except.ok response =>
      match success_response url response with
      | Except.error e => some (Except.error e, [NetEvent.http_get url bearer query])
      | Except.ok resp =>
        some (Except.ok ((bytes_stream resp.body).map
            (Except.mapError Error.GcsHttpError)),
          [NetEvent.http_get url bearer query])

/-- Modelled from the spec: `DeserializedResponse<R>` is the typed JSON
envelope of the API, decodable into a success payload XOR an embedded
error marker (its definition is not under the provided sources). -/
inductive DeserializedResponse (R : Type) where
  | result (r : R)
  | err (details : String)
deriving DecidableEq, Repr

/-- Modelled from the spec: `DeserializedResponse::into_result()` converts
the envelope into a success payload or the embedded error. -/
def DeserializedResponse.into_result {R : Type} :
    DeserializedResponse R → Except String R
  | DeserializedResponse.result r => Except.ok r
  | DeserializedResponse.err details => Except.error details

/-- `StorageClient::get_as_json::<R>(url, query)`: refresh the token, send
the GET, classify with `success_response`, decode the body as a
`DeserializedResponse<R>` (`json()`, whose failure becomes
`GcsHttpError`; `decode` is the transport oracle for it), and convert the
envelope with `into_result`, mapping an embedded error through
`gcs_unexpected_json::<R>` — tagged with `R`'s type name and the URL. -/
def get_as_json (R : Type) (type_name : String) (cached : Token)
    (gen : Except TokenError Token) (send : Except HttpErr Response)
    (decode : Except HttpErr (DeserializedResponse R)) (url : String)
    (query : List (String × String)) :
    Option (StorageResult R × List NetEvent) :=
  match refresh_token_run cached gen with
  | none => none
  | some (Except.error e) => some (Except.error e, [])
  | some (Except.ok bearer) =>
    match send with
    | Except.error e =>
      some (Except.error (Error.GcsHttpError e), [NetEvent.http_get url bearer query])
    | Except.ok response =>
      match success_response url response with
      | Except.error e => some (Except.error e, [NetEvent.http_get url bearer query])
      | Except.ok _resp =>
        match decode with
        | Except.error e =>
          some (Except.error (Error.GcsHttpError e), [NetEvent.http_get url bearer query])
        | Except.ok r =>
          match r.into_result with
          | Except.error details =>
            some (Except.error (Error.gcs_unexpected_json type_name url details),
              [NetEvent.http_get url bearer query])
          | Except.ok v =>
            some (Except.ok v, [NetEvent.http_get url bearer query])

/-!
## The claims
-/

/-- Claim C1 — the invalid-token half fails on the code: with an invalid
cached token and a generator that would succeed, `refresh_token` never
installs the minted token and never returns.  Along every execution the
cell keeps the original token and the caller never reaches a return
point: the source shadows the read-guard binding `t` instead of dropping
it, so the task awaits `self.token.write().await` while still holding its
own read guard.  (The valid-token half of the claim does hold; see
`fast_path_execution` and `refresh_run_agrees_valid`.) -/
theorem refresh_token_invalid_path_never_completes
    (t₀ t₁ : Token) (ht₀ : t₀.is_valid = false) :
    ∀ c, Reachable (init1 t₀ (Except.ok t₁)) c →
      c.token = t₀ ∧ ∀ th ∈ c.threads, th.pc.isDone = false := by
  intro c h
  have hinv : StuckInv t₀ c := by
    refine stuckInv_reachable ht₀ h ⟨rfl, fun th hmem => ?_⟩
    have heq : th = ⟨Except.ok t₁, PC.start⟩ := List.mem_singleton.mp hmem
    subst heq
    exact ⟨⟨t₁, rfl⟩, rfl⟩
  exact ⟨hinv.1, fun th hmem => (hinv.2 th hmem).2⟩

/-- Witness for C1's theorem: an expired cached token, a fresh minted
token, evaluated at the configuration in which the caller already awaits
the write lock. -/
theorem refresh_token_invalid_path_never_completes_witness :
    (Config.mk ⟨"expired", false⟩
        [⟨Except.ok ⟨"fresh", true⟩, PC.writeWait ⟨"fresh", true⟩⟩]).token
      = ⟨"expired", false⟩ ∧
    ∀ th ∈ (Config.mk ⟨"expired", false⟩
        [⟨Except.ok ⟨"fresh", true⟩, PC.writeWait ⟨"fresh", true⟩⟩]).threads,
      th.pc.isDone = false :=
  refresh_token_invalid_path_never_completes ⟨"expired", false⟩ ⟨"fresh", true⟩ rfl
    (Config.mk ⟨"expired", false⟩
      [⟨Except.ok ⟨"fresh", true⟩, PC.writeWait ⟨"fresh", true⟩⟩])
    (mint_ok_execution ⟨"expired", false⟩ ⟨"fresh", true⟩ rfl).2

/-- Claim C2 fails on the code: the read-only view is *not* released
before the `TokenGenerator` is called.  From an invalid cached token the
machine reaches a configuration in which the generator call is in flight
while the caller still holds the cache's read guard, and one in which the
caller awaits the write lock while still holding it. -/
theorem refresh_token_read_guard_held_across_mint :
    (∃ c, Reachable (init1 ⟨"expired", false⟩ (Except.ok ⟨"fresh", true⟩)) c ∧
      ∃ th, c.threads.get? 0 = some th ∧ th.pc = PC.minting ∧
        th.pc.holds_read = true) ∧
    (∃ c, Reachable (init1 ⟨"expired", false⟩ (Except.ok ⟨"fresh", true⟩)) c ∧
      ∃ th, c.threads.get? 0 = some th ∧
        th.pc = PC.writeWait ⟨"fresh", true⟩ ∧ th.pc.holds_read = true) := by
  obtain ⟨h1, h2⟩ := mint_ok_execution ⟨"expired", false⟩ ⟨"fresh", true⟩ rfl
  refine ⟨⟨_, h1, ⟨Except.ok ⟨"fresh", true⟩, PC.minting⟩, rfl, rfl, rfl⟩,
    ⟨_, h2, ⟨Except.ok ⟨"fresh", true⟩, PC.writeWait ⟨"fresh", true⟩⟩, rfl, rfl, rfl⟩⟩

/-- Claim C3: `success_response` classifies a 2xx status as success with
the response passed through untouched; a 404 as `GcsResourceNotFound`
carrying the original URL; and any other status as
`GcsUnexpectedResponse` carrying the URL and the full body text, or
`GcsHttpError` when reading the body text fails. -/
theorem success_response_classification (url : String) (resp : Response) :
    (is_success resp.status = true →
      success_response url resp = Except.ok resp) ∧
    (resp.status = 404 →
      success_response url resp = Except.error (Error.GcsResourceNotFound url)) ∧
    (is_success resp.status = false → resp.status ≠ 404 →
      (∀ b, resp.text = Except.ok b →
        success_response url resp
          = Except.error (Error.GcsUnexpectedResponse url b)) ∧
      (∀ e, resp.text = Except.error e →
        success_response url resp = Except.error (Error.GcsHttpError e))) := by
  refine ⟨?_, ?_, ?_⟩
  · intro h
    simp [success_response, h]
  · intro h404
    have hns : is_success 404 = false := by decide
    simp [success_response, h404, hns]
  · intro hns h404
    constructor
    · intro b hb
      simp [success_response, hns, h404, hb, Error.gcs_unexpected_response_error]
    · intro e he
      simp [success_response, hns, h404, he]

/-- Witness for C3's theorem: status 500 with body "boom" yields
`GcsUnexpectedResponse` with the exact string "boom". -/
theorem success_response_classification_witness :
    success_response "u" ⟨500, Except.ok "boom", ⟨[], none⟩⟩
      = Except.error (Error.GcsUnexpectedResponse "u" "boom") :=
  ((success_response_classification "u" ⟨500, Except.ok "boom", ⟨[], none⟩⟩).2.2
    (by decide) (by decide)).1 "boom" rfl

/-- Claim C4: when the HTTP response is classified successful but the
decoded envelope signals an embedded error, `get_as_json` returns
`GcsUnexpectedJson` carrying the requested result type's name and the
URL, and never a success value. -/
theorem get_as_json_error_envelope (R : Type) (type_name : String)
    (cached : Token) (gen : Except TokenError Token) (bearer : AccessToken)
    (resp : Response) (details url : String) (query : List (String × String))
    (htok : refresh_token_run cached gen = some (Except.ok bearer))
    (h2xx : is_success resp.status = true) :
    get_as_json R type_name cached gen (Except.ok resp)
        (Except.ok (DeserializedResponse.err details)) url query
      = some (Except.error (Error.GcsUnexpectedJson type_name url details),
          [NetEvent.http_get url bearer query]) ∧
    ∀ v evs, get_as_json R type_name cached gen (Except.ok resp)
        (Except.ok (DeserializedResponse.err details)) url query
      ≠ some (Except.ok v, evs) := by
  have hcl : success_response url resp = Except.ok resp := by
    simp [success_response, h2xx]
  have h1 : get_as_json R type_name cached gen (Except.ok resp)
      (Except.ok (DeserializedResponse.err details)) url query
      = some (Except.error (Error.GcsUnexpectedJson type_name url details),
          [NetEvent.http_get url bearer query]) := by
    simp [get_as_json, htok, hcl, DeserializedResponse.into_result,
      Error.gcs_unexpected_json]
  refine ⟨h1, fun v evs => ?_⟩
  rw [h1]
  simp

/-- Witness for C4's theorem: an expired-token-free fast path, a 200
response, an envelope carrying an embedded error. -/
theorem get_as_json_error_envelope_witness :
    get_as_json Nat "ObjectList" ⟨"tok", true⟩ (Except.error "unused")
        (Except.ok ⟨200, Except.ok "", ⟨[], none⟩⟩)
        (Except.ok (DeserializedResponse.err "backend failed"))
        "https://o/b" []
      = some (Except.error
          (Error.GcsUnexpectedJson "ObjectList" "https://o/b" "backend failed"),
        [NetEvent.http_get "https://o/b" "tok" []]) :=
  (get_as_json_error_envelope Nat "ObjectList" ⟨"tok", true⟩
    (Except.error "unused") "tok" ⟨200, Except.ok "", ⟨[], none⟩⟩
    "backend failed" "https://o/b" [] (by decide) (by decide)).1

/-- Claim C5: a successful `get_as_stream` over a body of N chunks yields
exactly those N chunks as successful items, in order, and then ends; if
the underlying read fails after the first k-1 chunks, the stream yields
those k-1 successful items, then exactly one `GcsHttpError`, and nothing
further. -/
theorem get_as_stream_chunking
    (cached : Token) (gen : Except TokenError Token) (bearer : AccessToken)
    (resp : Response) (url : String) (query : List (String × String))
    (htok : refresh_token_run cached gen = some (Except.ok bearer))
    (h2xx : is_success resp.status = true) :
    (resp.body.failure = none →
      get_as_stream cached gen (Except.ok resp) url query
        = some (Except.ok (resp.body.chunks.map Except.ok),
            [NetEvent.http_get url bearer query])) ∧
    (∀ e, resp.body.failure = some e →
      get_as_stream cached gen (Except.ok resp) url query
        = some (Except.ok (resp.body.chunks.map Except.ok
              ++ [Except.error (Error.GcsHttpError e)]),
            [NetEvent.http_get url bearer query])) := by
  have hcl : success_response url resp = Except.ok resp := by
    simp [success_response, h2xx]
  constructor
  · intro hnone
    simp [get_as_stream, htok, hcl, bytes_stream, hnone, Except.mapError]
  · intro e hsome
    simp [get_as_stream, htok, hcl, bytes_stream, hsome, Except.mapError]

/-- Witness for C5's theorem: a valid cached token, a 200 response with
two chunks and no failure, and the same with a read failure after one
chunk. -/
theorem get_as_stream_chunking_witness :
    get_as_stream ⟨"tok", true⟩ (Except.error "unused")
        (Except.ok ⟨200, Except.ok "", ⟨[[1, 2], [3]], none⟩⟩) "https://o" []
      = some (Except.ok [Except.ok [1, 2], Except.ok [3]],
          [NetEvent.http_get "https://o" "tok" []]) ∧
    get_as_stream ⟨"tok", true⟩ (Except.error "unused")
        (Except.ok ⟨200, Except.ok "", ⟨[[1, 2]], some "reset"⟩⟩) "https://o" []
      = some (Except.ok [Except.ok [1, 2], Except.error (Error.GcsHttpError "reset")],
          [NetEvent.http_get "https://o" "tok" []]) :=
  ⟨(get_as_stream_chunking ⟨"tok", true⟩ (Except.error "unused") "tok"
      ⟨200, Except.ok "", ⟨[[1, 2], [3]], none⟩⟩ "https://o" []
      (by decide) (by decide)).1 rfl,
   (get_as_stream_chunking ⟨"tok", true⟩ (Except.error "unused") "tok"
      ⟨200, Except.ok "", ⟨[[1, 2]], some "reset"⟩⟩ "https://o" []
      (by decide) (by decide)).2 "reset" rfl⟩

/-- Claim C6: construction mints one initial token: on generator success
the client holds exactly that token; on generator failure the token error
propagates and no client is produced. -/
theorem new_mints_initial_token (gen : Except TokenError Token) :
    (∀ t, gen = Except.ok t →
      StorageClient.new gen = Except.ok { token := t }) ∧
    (∀ e, gen = Except.error e →
      StorageClient.new gen = Except.error (Error.GcsTokenError e)) := by
  constructor
  · intro t h
    rw [h]
    rfl
  · intro e h
    rw [h]
    rfl

/-- Witness for C6's theorem at a concrete minted token and a concrete
minting failure. -/
theorem new_mints_initial_token_witness :
    StorageClient.new (Except.ok ⟨"tok", true⟩)
        = Except.ok { token := ⟨"tok", true⟩ } ∧
    StorageClient.new (Except.error "denied")
        = Except.error (Error.GcsTokenError "denied") :=
  ⟨(new_mints_initial_token (Except.ok ⟨"tok", true⟩)).1 ⟨"tok", true⟩ rfl,
   (new_mints_initial_token (Except.error "denied")).2 "denied" rfl⟩

/-- Claim C7: a `delete` whose transport response has status 404 returns
the domain-specific `GcsResourceNotFound` carrying the target URL, not a
generic transport error. -/
theorem delete_notfound_classification
    (cached : Token) (gen : Except TokenError Token) (bearer : AccessToken)
    (resp : Response) (url : String)
    (htok : refresh_token_run cached gen = some (Except.ok bearer))
    (h404 : resp.status = 404) :
    delete cached gen (Except.ok resp) url
      = some (Except.error (Error.GcsResourceNotFound url),
          [NetEvent.http_delete url bearer]) := by
  have hns : is_success 404 = false := by decide
  simp [delete, htok, success_response, h404, hns]

/-- Witness for C7's theorem: a valid cached token and a 404 response. -/
theorem delete_notfound_classification_witness :
    delete ⟨"tok", true⟩ (Except.error "unused")
        (Except.ok ⟨404, Except.ok "missing", ⟨[], none⟩⟩) "https://o/x"
      = some (Except.error (Error.GcsResourceNotFound "https://o/x"),
          [NetEvent.http_delete "https://o/x" "tok"]) :=
  delete_notfound_classification ⟨"tok", true⟩ (Except.error "unused") "tok"
    ⟨404, Except.ok "missing", ⟨[], none⟩⟩ "https://o/x" (by decide) rfl

/-- Claim C8 fails on the code: concurrent callers racing on an invalid
token each reach their own mint, but no refresh ever completes and the
cache never comes to hold a minted token: along every interleaving of any
number of callers the cell keeps the original token and no caller
returns (each deadlocks awaiting the write lock while holding its own
read guard). -/
theorem concurrent_refresh_never_installs
    (t₀ : Token) (mints : List Token) (ht₀ : t₀.is_valid = false) :
    ∀ c, Reachable ⟨t₀, mints.map (fun t => ⟨Except.ok t, PC.start⟩)⟩ c →
      c.token = t₀ ∧ ∀ th ∈ c.threads, th.pc.isDone = false := by
  intro c h
  have hinv : StuckInv t₀ c := by
    refine stuckInv_reachable ht₀ h ⟨rfl, fun th hmem => ?_⟩
    rcases List.mem_map.mp hmem with ⟨t, _ht, rfl⟩
    exact ⟨⟨t, rfl⟩, rfl⟩
  exact ⟨hinv.1, fun th hmem => (hinv.2 th hmem).2⟩

/-- Witness for C8's theorem: two concurrent callers racing on an expired
token, evaluated at the initial configuration. -/
theorem concurrent_refresh_never_installs_witness :
    (Config.mk ⟨"expired", false⟩
        ([⟨"a", true⟩, ⟨"b", true⟩].map
          (fun t => ⟨Except.ok t, PC.start⟩))).token = ⟨"expired", false⟩ ∧
    ∀ th ∈ (Config.mk ⟨"expired", false⟩
        ([⟨"a", true⟩, ⟨"b", true⟩].map
          (fun t => ⟨Except.ok t, PC.start⟩))).threads,
      th.pc.isDone = false :=
  concurrent_refresh_never_installs ⟨"expired", false⟩
    [⟨"a", true⟩, ⟨"b", true⟩] rfl _ Relation.ReflTransGen.refl

/-- Claim C9: when the cached token is invalid and the generator fails,
`refresh_token` returns `Err(GcsTokenError e)` and the cached token cell
is unchanged: along every execution the cell keeps the original token and
the only value a caller can return is that error; and the full run
(acquire read, observe invalid, mint failure, propagate with `?`) is an
execution of the machine. -/
theorem refresh_token_generator_failure_preserves_cache
    (t₀ : Token) (e : TokenError) (ht₀ : t₀.is_valid = false) :
    (∀ c, Reachable (init1 t₀ (Except.error e)) c →
      c.token = t₀ ∧
      ∀ th ∈ c.threads, th.pc.isDone = true →
        th.pc = PC.done (Except.error (Error.GcsTokenError e))) ∧
    Reachable (init1 t₀ (Except.error e))
      ⟨t₀, [⟨Except.error e, PC.done (Except.error (Error.GcsTokenError e))⟩]⟩ := by
  constructor
  · intro c h
    have hinv : MintErrInv t₀ e c := by
      refine mintErrInv_reachable ht₀ h ⟨rfl, fun th hmem => ?_⟩
      have heq : th = ⟨Except.error e, PC.start⟩ := List.mem_singleton.mp hmem
      subst heq
      exact ⟨rfl, Or.inl rfl⟩
    refine ⟨hinv.1, fun th hmem hd => ?_⟩
    rcases (hinv.2 th hmem).2 with h1 | h1
    · rw [h1] at hd
      simp at hd
    · exact h1
  · exact mint_err_execution t₀ e ht₀

/-- Witness for C9's theorem: an expired token and a denied mint,
evaluated at the final configuration of the failing run. -/
theorem refresh_token_generator_failure_preserves_cache_witness :
    (Config.mk ⟨"expired", false⟩
        [⟨Except.error "denied",
          PC.done (Except.error (Error.GcsTokenError "denied"))⟩]).token
      = ⟨"expired", false⟩ ∧
    ∀ th ∈ (Config.mk ⟨"expired", false⟩
        [⟨Except.error "denied",
          PC.done (Except.error (Error.GcsTokenError "denied"))⟩]).threads,
      th.pc.isDone = true →
        th.pc = PC.done (Except.error (Error.GcsTokenError "denied")) :=
  (refresh_token_generator_failure_preserves_cache
      ⟨"expired", false⟩ "denied" rfl).1 _
    (refresh_token_generator_failure_preserves_cache
      ⟨"expired", false⟩ "denied" rfl).2

/-- Claim C10: when token acquisition fails (invalid cached token, failing
generator), every public operation returns that token error and hands no
request at all to the transport. -/
theorem token_failure_sends_no_request (R : Type)
    (cached : Token) (e : TokenError) (send : Except HttpErr Response)
    (decode : Except HttpErr (DeserializedResponse R))
    (url type_name : String) (query : List (String × String))
    (body : List Bytes) (hv : cached.is_valid = false) :
    delete cached (Except.error e) send url
        = some (Except.error (Error.GcsTokenError e), []) ∧
    post cached (Except.error e) send url body
        = some (Except.error (Error.GcsTokenError e), []) ∧
    get_as_stream cached (Except.error e) send url query
        = some (Except.error (Error.GcsTokenError e), []) ∧
    get_as_json R type_name cached (Except.error e) send decode url query
        = some (Except.error (Error.GcsTokenError e), []) := by
  have h : refresh_token_run cached (Except.error e)
      = some (Except.error (Error.GcsTokenError e)) := by
    simp [refresh_token_run, hv]
  exact ⟨by simp [delete, h], by simp [post, h],
    by simp [get_as_stream, h], by simp [get_as_json, h]⟩

/-- Witness for C10's theorem at a concrete expired token and denied
mint. -/
theorem token_failure_sends_no_request_witness :
    delete ⟨"expired", false⟩ (Except.error "denied")
        (Except.ok ⟨200, Except.ok "", ⟨[], none⟩⟩) "https://o"
        = some (Except.error (Error.GcsTokenError "denied"), []) ∧
    post ⟨"expired", false⟩ (Except.error "denied")
        (Except.ok ⟨200, Except.ok "", ⟨[], none⟩⟩) "https://o" [[1]]
        = some (Except.error (Error.GcsTokenError "denied"), []) ∧
    get_as_stream ⟨"expired", false⟩ (Except.error "denied")
        (Except.ok ⟨200, Except.ok "", ⟨[], none⟩⟩) "https://o" []
        = some (Except.error (Error.GcsTokenError "denied"), []) ∧
    get_as_json Nat "ObjectList" ⟨"expired", false⟩ (Except.error "denied")
        (Except.ok ⟨200, Except.ok "", ⟨[], none⟩⟩)
        (Except.ok (DeserializedResponse.result 0)) "https://o" []
        = some (Except.error (Error.GcsTokenError "denied"), []) :=
  token_failure_sends_no_request Nat ⟨"expired", false⟩ "denied"
    (Except.ok ⟨200, Except.ok "", ⟨[], none⟩⟩)
    (Except.ok (DeserializedResponse.result 0)) "https://o" "ObjectList"
    [] [[1]] rfl

end Gcs
